import Mathlib

/-!
Shallow embedding of the CyberAI chat server core:
the in-memory storage (`MemStorage` in server/storage.ts), the Gemini
service wrappers (`generateChatResponse`, `generateConversationTitle` in
server/services/gemini.ts) and the `POST /api/chat` route handler
(`registerRoutes` in server/routes.ts).

Modelling conventions:
- JS `Map` objects keyed by freshly generated UUIDs are modelled as lists of
  their values in insertion order (a JS `Map` iterates its values in
  insertion order, and fresh keys mean `set` always appends).
- `randomUUID()` results and `new Date()` timestamps are passed in
  explicitly (the `ChatOracle` record); timestamps are `Nat` milliseconds,
  compared exactly as `Date.getTime()` comparisons in the source.
- JS `Array.prototype.sort` with a numeric comparator is a stable sort;
  it is modelled by Mathlib `List.insertionSort`, which is stable.
- The external provider call is modelled by its outcome (`ProviderOutcome`),
  an input to the functions that wrap it.
- JS exceptions are modelled by `Except`/`Thrown`; a thrown value is either
  an `Error` object carrying a message string, or any other value.
-/

namespace CyberAI

/-- Modelled from the spec: the shared schema module (`@shared/schema`) is
not part of the sources; the `User` record follows the spec data model
{id, username, credential}. Users are not exercised by the chat flow. -/
structure User where
  id : String
  username : String
  credential : String
deriving DecidableEq

/-- Conversation record from the shared schema, as used by storage.ts:
{id, title, createdAt}. -/
structure Conversation where
  id : String
  title : String
  createdAt : Nat
deriving DecidableEq

/-- Message record from the shared schema, as used by storage.ts:
{id, conversationId (nullable), role, content, timestamp}. -/
structure Message where
  id : String
  conversationId : Option String
  role : String
  content : String
  timestamp : Nat
deriving DecidableEq

/-- Insert shape for `createUser` (id assigned by the store). -/
structure InsertUser where
  username : String
  credential : String
deriving DecidableEq

/-- Insert shape for `createConversation` (id and createdAt assigned). -/
structure InsertConversation where
  title : String
deriving DecidableEq

/-- Insert shape for `createMessage` (id and timestamp assigned);
`conversationId` is optional. -/
structure InsertMessage where
  conversationId : Option String
  role : String
  content : String
deriving DecidableEq

/-- The in-memory store: the three `Map`s of class `MemStorage`
(storage.ts lines 27-36), each modelled as its values in insertion order. -/
structure MemStorage where
  users : List User
  conversations : List Conversation
  messages : List Message
deriving DecidableEq

/-- Comparator used by `getMessagesByConversation` (storage.ts line 104):
`(a, b) => a.timestamp.getTime() - b.timestamp.getTime()`, i.e. ascending
by timestamp. -/
def msgLE (a b : Message) : Prop := a.timestamp ≤ b.timestamp

instance : DecidableRel msgLE := fun a b => Nat.decLe a.timestamp b.timestamp

instance : IsTotal Message msgLE := ⟨fun a b => Nat.le_total a.timestamp b.timestamp⟩

instance : IsTrans Message msgLE := ⟨fun _ _ _ h1 h2 => Nat.le_trans h1 h2⟩

/-- Comparator used by `getAllConversations` (storage.ts line 70):
`(a, b) => b.createdAt.getTime() - a.createdAt.getTime()`, i.e. descending
by creation time. -/
def convDescLE (a b : Conversation) : Prop := b.createdAt ≤ a.createdAt

instance : DecidableRel convDescLE := fun a b => Nat.decLe b.createdAt a.createdAt

instance : IsTotal Conversation convDescLE := ⟨fun a b => Nat.le_total b.createdAt a.createdAt⟩

instance : IsTrans Conversation convDescLE := ⟨fun _ _ _ h1 h2 => Nat.le_trans h2 h1⟩

/-- `MemStorage.getUser` (storage.ts lines 39-41): `Map.get` by id. -/
def MemStorage.getUser (st : MemStorage) (id : String) : Option User :=
  st.users.find? (fun u => u.id == id)

/-- `MemStorage.getUserByUsername` (storage.ts lines 43-47): linear scan,
first match. -/
def MemStorage.getUserByUsername (st : MemStorage) (username : String) : Option User :=
  st.users.find? (fun u => u.username == username)

/-- `MemStorage.createUser` (storage.ts lines 49-54); `freshId` stands for
the `randomUUID()` result. -/
def MemStorage.createUser (st : MemStorage) (iu : InsertUser) (freshId : String) :
    User × MemStorage :=
  let u : User := ⟨freshId, iu.username, iu.credential⟩
  (u, { st with users := st.users ++ [u] })

/-- `MemStorage.createConversation` (storage.ts lines 57-66); `freshId`
stands for `randomUUID()` and `now` for `new Date()`. -/
def MemStorage.createConversation (st : MemStorage) (ic : InsertConversation)
    (freshId : String) (now : Nat) : Conversation × MemStorage :=
  let c : Conversation := ⟨freshId, ic.title, now⟩
  (c, { st with conversations := st.conversations ++ [c] })

/-- `MemStorage.getAllConversations` (storage.ts lines 68-72):
`Array.from(map.values()).sort((a, b) => b.createdAt - a.createdAt)`;
the sort is stable. -/
def MemStorage.getAllConversations (st : MemStorage) : List Conversation :=
  List.insertionSort convDescLE st.conversations

/-- `MemStorage.deleteConversation` (storage.ts lines 74-86): deletes the
conversation entry with that key, then deletes every message entry whose
value has `conversationId === id`. -/
def MemStorage.deleteConversation (st : MemStorage) (id : String) : MemStorage :=
  { st with
    conversations := st.conversations.filter (fun c => decide (¬ c.id = id))
    messages := st.messages.filter (fun m => decide (¬ m.conversationId = some id)) }

/-- The coercion on storage.ts line 94:
`conversationId: insertMessage.conversationId || null` — every falsy value
(absent, null, or the empty string) becomes null. -/
def coerceFalsyId : Option String → Option String
  | none => none
  | some s => if s = "" then none else some s

/-- `MemStorage.createMessage` (storage.ts lines 89-99); `freshId` stands
for `randomUUID()` and `now` for `new Date()`. -/
def MemStorage.createMessage (st : MemStorage) (im : InsertMessage)
    (freshId : String) (now : Nat) : Message × MemStorage :=
  let m : Message := ⟨freshId, coerceFalsyId im.conversationId, im.role, im.content, now⟩
  (m, { st with messages := st.messages ++ [m] })

/-- `MemStorage.getMessagesByConversation` (storage.ts lines 101-105):
filter by strict equality `message.conversationId === conversationId`
(never true for a null conversationId), then stable-sort ascending by
timestamp. -/
def MemStorage.getMessagesByConversation (st : MemStorage) (conversationId : String) :
    List Message :=
  List.insertionSort msgLE
    (st.messages.filter (fun m => decide (m.conversationId = some conversationId)))

/-! ### Gemini service wrappers (server/services/gemini.ts) -/

/-- A JS thrown value: either an `Error` object (carrying `.message`) or
any other value. -/
inductive Thrown where
  | errObj (message : String)
  | other
deriving DecidableEq

/-- Outcome of the external `ai.models.generateContent` call: a response
whose `.text` may be absent, or a thrown value. -/
inductive ProviderOutcome where
  | ok (text : Option String)
  | thrown (e : Thrown)
deriving DecidableEq

/-- One entry of the conversation history handed to
`generateChatResponse` (the `ChatMessage` interface, gemini.ts
lines 227-230). -/
structure ChatMessage where
  role : String
  content : String
deriving DecidableEq

/-- The two environment variables consulted for the API credential
(gemini.ts lines 224, 237); `none` models an unset variable. -/
structure Env where
  geminiApiKey : Option String
  googleApiKey : Option String
deriving DecidableEq

/-- JS truthiness of a `string | undefined` value: falsy iff absent or
the empty string. -/
def envVarTruthy : Option String → Bool
  | none => false
  | some s => decide (¬ s = "")

/-- The credential check on gemini.ts line 237:
`!process.env.GEMINI_API_KEY && !process.env.GOOGLE_API_KEY` means not
configured. -/
def credentialConfigured (env : Env) : Bool :=
  envVarTruthy env.geminiApiKey || envVarTruthy env.googleApiKey

/-- Helper for JS `String.prototype.includes`: list-of-chars prefix test. -/
def charListIsPre : List Char → List Char → Bool
  | [], _ => true
  | _ :: _, [] => false
  | a :: as, b :: bs => a == b && charListIsPre as bs

/-- Helper for JS `String.prototype.includes`: does `l` contain `pat` as a
contiguous run. -/
def charListContains (pat : List Char) : List Char → Bool
  | [] => pat.isEmpty
  | c :: t => charListIsPre pat (c :: t) || charListContains pat t

/-- JS `s.includes(pat)`. -/
def strIncludes (s pat : String) : Bool :=
  charListContains pat.data s.data

/-- The message of the error thrown when no credential is configured
(gemini.ts line 238). -/
def missingKeyMessage : String := "GEMINI_API_KEY environment variable is required"

/-- The fallback reply used when the provider returns an empty text
(gemini.ts line 264). -/
def emptyResponseFallback : String :=
  "I apologize, but I couldn\x27t generate a response. Please try again."

/-- The catch block of `generateChatResponse` (gemini.ts lines 265-281):
classify the caught value by inspecting `.message` and re-throw a new
`Error` with a user-facing message. -/
def classifyGeminiError : Thrown → String
  | .errObj m =>
    if strIncludes m "API_KEY" then
      "Invalid or missing API key. Please check your Gemini API configuration."
    else if strIncludes m "quota" then
      "API quota exceeded. Please try again later."
    else if strIncludes m "rate" then
      "Rate limit exceeded. Please wait a moment before sending another message."
    else
      "Failed to generate AI response. Please try again."
  | .other => "Failed to generate AI response. Please try again."

/-- `generateChatResponse` (gemini.ts lines 232-282). The credential check
happens inside the `try`, so its own throw is classified by the same catch
(its message contains "API_KEY"). On success, `response.text || fallback`
never returns an empty string. The result is the returned string or the
message of the re-thrown `Error`. -/
def generateChatResponse (env : Env) (message : String)
    (conversationHistory : List ChatMessage) (provider : ProviderOutcome) :
    Except String String :=
  if credentialConfigured env then
    match provider with
    | .ok txt =>
      .ok (match txt with
        | some s => if s = "" then emptyResponseFallback else s
        | none => emptyResponseFallback)
    | .thrown e => .error (classifyGeminiError e)
  else
    .error (classifyGeminiError (.errObj missingKeyMessage))

/-- JS `title.replace(/['"]/g, "")`: drop every apostrophe (code 39) and
double quote (code 34). -/
def isQuoteChar (c : Char) : Bool := c.toNat == 39 || c.toNat == 34

/-- The quote-stripping step of `generateConversationTitle`
(gemini.ts line 299). -/
def stripQuotes (s : String) : String :=
  ⟨s.data.filter (fun c => !(isQuoteChar c))⟩

/-- JS `String.prototype.trim`: drop whitespace from both ends. -/
def jsTrim (s : String) : String :=
  ⟨((s.data.dropWhile Char.isWhitespace).reverse.dropWhile Char.isWhitespace).reverse⟩

/-- JS `s.substring(0, n)`. -/
def jsSubstringTo (s : String) (n : Nat) : String :=
  ⟨s.data.take n⟩

/-- `generateConversationTitle` (gemini.ts lines 284-304). `firstMessage`
only shapes the provider request (truncated to 200 characters there);
the result depends on the provider outcome:
`(response.text?.substring(0, 50) || "New Conversation")` stripped of
quotes and trimmed, and exactly "New Conversation" from the catch-all. -/
def generateConversationTitle (firstMessage : String)
    (provider : Except Unit (Option String)) : String :=
  match provider with
  | .ok txt =>
    let title := match txt with
      | some s => if s = "" then "New Conversation" else jsSubstringTo s 50
      | none => "New Conversation"
    jsTrim (stripQuotes title)
  | .error _ => "New Conversation"

/-! ### The `POST /api/chat` handler (server/routes.ts lines 118-176) -/

/-- The request body after `chatRequestSchema.parse` succeeded:
{message, conversationId?}. -/
structure ChatRequestBody where
  message : String
  conversationId : Option String
deriving DecidableEq

/-- The nondeterministic inputs of one handler run: the outcomes of the two
provider calls, the `randomUUID()` results, and the `new Date()` values. -/
structure ChatOracle where
  chatProvider : ProviderOutcome
  titleProvider : Except Unit (Option String)
  convId : String
  userMsgId : String
  asstMsgId : String
  convNow : Nat
  userNow : Nat
  asstNow : Nat

/-- What one handler run produces: the HTTP status, the JSON body fields
(`response`/`conversationId` on success, `error` on failure) and the store
left behind. -/
structure ChatHandlerResult where
  status : Nat
  response : Option String
  conversationId : Option String
  error : Option String
  store : MemStorage
deriving DecidableEq

/-- The generic message of the 500 branch (routes.ts line 172). -/
def unexpectedErrorMessage : String :=
  "An unexpected error occurred while processing your request."

/-- The catch block of the chat route (routes.ts lines 163-175):
`Error` instances yield 400 with the error message, anything else yields
500 with a generic message; the store is untouched. -/
def chatCatch (st : MemStorage) : Thrown → ChatHandlerResult
  | .errObj m => ⟨400, none, none, some m, st⟩
  | .other => ⟨500, none, none, some unexpectedErrorMessage, st⟩

/-- The `POST /api/chat` handler (routes.ts lines 118-176). `parsed` is the
outcome of `chatRequestSchema.parse(req.body)` (a `ZodError` is an `Error`
instance). Note `if (conversationId)` is a JS truthiness test, so an empty
string behaves like an absent id. -/
def postChat (env : Env) (st : MemStorage) (parsed : Except Thrown ChatRequestBody)
    (o : ChatOracle) : ChatHandlerResult :=
  match parsed with
  | .error e => chatCatch st e
  | .ok body =>
    let conversationHistory : List ChatMessage :=
      if envVarTruthy body.conversationId then
        (MemStorage.getMessagesByConversation st (body.conversationId.getD "")).map
          (fun m => ⟨m.role, m.content⟩)
      else []
    match generateChatResponse env body.message conversationHistory o.chatProvider with
    | .error emsg => chatCatch st (.errObj emsg)
    | .ok aiResponse =>
      let convAndStore : String × MemStorage :=
        if envVarTruthy body.conversationId then
          (body.conversationId.getD "", st)
        else
          let title := generateConversationTitle body.message o.titleProvider
          let cs := MemStorage.createConversation st ⟨title⟩ o.convId o.convNow
          (cs.1.id, cs.2)
      let st2 := (MemStorage.createMessage convAndStore.2
        ⟨some convAndStore.1, "user", body.message⟩ o.userMsgId o.userNow).2
      let st3 := (MemStorage.createMessage st2
        ⟨some convAndStore.1, "assistant", aiResponse⟩ o.asstMsgId o.asstNow).2
      ⟨200, some aiResponse, some convAndStore.1, none, st3⟩

/-- `GET /api/conversations/:id/messages` (routes.ts lines 179-188):
a pass-through to the store. -/
def getConversationMessagesRoute (st : MemStorage) (id : String) : Nat × List Message :=
  (200, MemStorage.getMessagesByConversation st id)

/-- `GET /api/conversations` (routes.ts lines 191-199): a pass-through. -/
def getConversationsRoute (st : MemStorage) : Nat × List Conversation :=
  (200, MemStorage.getAllConversations st)

/-- `DELETE /api/conversations/:id` (routes.ts lines 202-211):
a pass-through that answers `{success: true}`. -/
def deleteConversationRoute (st : MemStorage) (id : String) : Nat × MemStorage :=
  (200, MemStorage.deleteConversation st id)

/-- The failure condition of claim C8: the title provider call threw, or
its textual result was absent or empty. -/
def titleProviderFailedOrEmpty : Except Unit (Option String) → Bool
  | .error _ => true
  | .ok none => true
  | .ok (some s) => decide (s = "")

/-! ### Generic facts about the stable `List.insertionSort` -/

section SortLemmas

variable {α : Type} (r : α → α → Prop) [DecidableRel r]

theorem orderedInsert_append_last (a x : α) (hax : r a x) :
    ∀ s : List α, List.orderedInsert r a (s ++ [x]) = List.orderedInsert r a s ++ [x]
  | [] => by simp [List.orderedInsert, hax]
  | b :: t => by
    by_cases h : r a b
    · simp [List.orderedInsert, h]
    · simp [List.orderedInsert, h, orderedInsert_append_last a x hax t]

theorem insertionSort_append_last (x : α) :
    ∀ l : List α, (∀ y ∈ l, r y x) →
      List.insertionSort r (l ++ [x]) = List.insertionSort r l ++ [x]
  | [], _ => by simp [List.insertionSort]
  | y :: t, h => by
    have ht := insertionSort_append_last x t (fun a ha => h a (List.mem_cons_of_mem _ ha))
    show List.orderedInsert r y (List.insertionSort r (t ++ [x])) =
      List.orderedInsert r y (List.insertionSort r t) ++ [x]
    rw [ht]
    exact orderedInsert_append_last r y x (h y (List.mem_cons_self _ _)) _

theorem orderedInsert_filter_pos (p : α → Bool) (a : α) (hpa : p a = true)
    (hskip : ∀ b, ¬ r a b → p b = false) :
    ∀ s : List α, (List.orderedInsert r a s).filter p = a :: s.filter p
  | [] => by simp [hpa]
  | b :: t => by
    by_cases h : r a b
    · simp [List.orderedInsert, h, List.filter_cons, hpa]
    · have hb := hskip b h
      simp [List.orderedInsert, h, List.filter_cons, hb,
        orderedInsert_filter_pos p a hpa hskip t]

theorem orderedInsert_filter_neg (p : α → Bool) (a : α) (hpa : p a = false) :
    ∀ s : List α, (List.orderedInsert r a s).filter p = s.filter p
  | [] => by simp [hpa]
  | b :: t => by
    by_cases h : r a b
    · simp [List.orderedInsert, h, List.filter_cons, hpa]
    · simp [List.orderedInsert, h, List.filter_cons,
        orderedInsert_filter_neg p a hpa t]

/-- Stability of `List.insertionSort`, phrased through filters: any
predicate that never selects an element strictly below a selected one
selects the same subsequence, in the same order, before and after
sorting. -/
theorem insertionSort_filter_stable (p : α → Bool)
    (hskip : ∀ a b, p a = true → ¬ r a b → p b = false) :
    ∀ l : List α, (List.insertionSort r l).filter p = l.filter p
  | [] => rfl
  | a :: t => by
    by_cases hpa : p a = true
    · rw [List.insertionSort, orderedInsert_filter_pos r p a hpa (fun b hb => hskip a b hpa hb),
        insertionSort_filter_stable p hskip t, List.filter_cons_of_pos hpa]
    · have hf : p a = false := by simpa using hpa
      rw [List.insertionSort, orderedInsert_filter_neg r p a hf,
        insertionSort_filter_stable p hskip t, List.filter_cons_of_neg hpa]

end SortLemmas

/-! ### Claims about the store operations -/

/-- C5: for every id, `deleteConversation id` removes the conversation with
that id (and is a no-op, not an error, when no conversation has that id)
and removes exactly the messages whose conversationId equals that id, so
that afterwards `getMessagesByConversation id` is empty and no remaining
message references the deleted conversation. -/
theorem deleteConversation_cascades (st : MemStorage) (id : String) :
    (∀ c ∈ (MemStorage.deleteConversation st id).conversations, c.id ≠ id) ∧
    (∀ c ∈ st.conversations, c.id ≠ id → c ∈ (MemStorage.deleteConversation st id).conversations) ∧
    (∀ m ∈ (MemStorage.deleteConversation st id).messages, m.conversationId ≠ some id) ∧
    (∀ m ∈ st.messages, m.conversationId ≠ some id →
      m ∈ (MemStorage.deleteConversation st id).messages) ∧
    MemStorage.getMessagesByConversation (MemStorage.deleteConversation st id) id = [] ∧
    ((∀ c ∈ st.conversations, c.id ≠ id) →
      (MemStorage.deleteConversation st id).conversations = st.conversations) := by
  refine ⟨?_, ?_, ?_, ?_, ?_, ?_⟩
  · intro c hc
    exact of_decide_eq_true (List.mem_filter.mp hc).2
  · intro c hc hne
    exact List.mem_filter.mpr ⟨hc, decide_eq_true hne⟩
  · intro m hm
    exact of_decide_eq_true (List.mem_filter.mp hm).2
  · intro m hm hne
    exact List.mem_filter.mpr ⟨hm, decide_eq_true hne⟩
  · have hnil : (MemStorage.deleteConversation st id).messages.filter
        (fun m => decide (m.conversationId = some id)) = [] := by
      refine List.filter_eq_nil_iff.mpr ?_
      intro m hm hdec
      exact of_decide_eq_true (List.mem_filter.mp hm).2 (of_decide_eq_true hdec)
    unfold MemStorage.getMessagesByConversation
    rw [hnil]
    rfl
  · intro hall
    refine List.filter_eq_self.mpr ?_
    intro c hc
    exact decide_eq_true (hall c hc)

/-- C5 witness at a concrete store: deleting conversation c1 removes it,
cascades to its messages, and leaves the other conversation intact. -/
theorem deleteConversation_cascades_witness :
    MemStorage.getMessagesByConversation
      (MemStorage.deleteConversation
        ⟨[], [⟨"c1", "t", 5⟩], [⟨"m1", some "c1", "user", "x", 1⟩]⟩ "c1") "c1" = [] :=
  (deleteConversation_cascades ⟨[], [⟨"c1", "t", 5⟩], [⟨"m1", some "c1", "user", "x", 1⟩]⟩ "c1").2.2.2.2.1

/-- C6: `getMessagesByConversation id` returns exactly the stored messages
whose conversationId equals that id (a permutation of that filtering),
sorted ascending by timestamp, with ties kept in insertion order
(the filter by any fixed timestamp is preserved, which is stability), and
it returns the empty list, not an error, when no message matches. -/
theorem getMessagesByConversation_ordered (st : MemStorage) (id : String) :
    (MemStorage.getMessagesByConversation st id).Perm
      (st.messages.filter (fun m => decide (m.conversationId = some id))) ∧
    (MemStorage.getMessagesByConversation st id).Pairwise
      (fun a b => a.timestamp ≤ b.timestamp) ∧
    (∀ t : Nat,
      (MemStorage.getMessagesByConversation st id).filter (fun m => decide (m.timestamp = t)) =
        (st.messages.filter (fun m => decide (m.conversationId = some id))).filter
          (fun m => decide (m.timestamp = t))) ∧
    ((∀ m ∈ st.messages, ¬ m.conversationId = some id) →
      MemStorage.getMessagesByConversation st id = []) := by
  refine ⟨?_, ?_, ?_, ?_⟩
  · exact List.perm_insertionSort msgLE _
  · exact List.sorted_insertionSort msgLE _
  · intro t
    refine insertionSort_filter_stable msgLE (fun m => decide (m.timestamp = t)) ?_ _
    intro a b hpa hr
    have ha : a.timestamp = t := of_decide_eq_true hpa
    have hb : b.timestamp < a.timestamp := Nat.lt_of_not_le hr
    exact decide_eq_false (fun hbt => Nat.ne_of_lt hb (hbt.trans ha.symm))
  · intro hall
    have hnil : st.messages.filter (fun m => decide (m.conversationId = some id)) = [] :=
      List.filter_eq_nil_iff.mpr (fun m hm hdec => hall m hm (of_decide_eq_true hdec))
    unfold MemStorage.getMessagesByConversation
    rw [hnil]
    rfl

/-- C6 witness: on a store whose only message belongs to another
conversation, the query for c2 returns the empty list. -/
theorem getMessagesByConversation_ordered_witness :
    MemStorage.getMessagesByConversation
      ⟨[], [], [⟨"m1", some "c1", "user", "x", 1⟩]⟩ "c2" = [] :=
  (getMessagesByConversation_ordered ⟨[], [], [⟨"m1", some "c1", "user", "x", 1⟩]⟩ "c2").2.2.2
    (by decide)

/-- C7: `getAllConversations` returns all stored conversations (a
permutation of the store contents, whatever the insertion order was),
sorted by creation timestamp descending. -/
theorem getAllConversations_sorted_desc (st : MemStorage) :
    (MemStorage.getAllConversations st).Perm st.conversations ∧
    (MemStorage.getAllConversations st).Pairwise
      (fun a b => b.createdAt ≤ a.createdAt) :=
  ⟨List.perm_insertionSort convDescLE _, List.sorted_insertionSort convDescLE _⟩

/-- C8: `generateConversationTitle` is a total function (its catch-all
never lets a failure escape), and whenever the provider call fails or
returns an empty textual result it returns exactly the literal
"New Conversation". -/
theorem generateConversationTitle_fallback (firstMessage : String)
    (p : Except Unit (Option String)) (h : titleProviderFailedOrEmpty p = true) :
    generateConversationTitle firstMessage p = "New Conversation" := by
  match p with
  | .error _ => rfl
  | .ok none => rfl
  | .ok (some s) =>
    have hs : s = "" := of_decide_eq_true h
    subst hs
    rfl

/-- C8 witness: an empty provider text yields exactly "New Conversation". -/
theorem generateConversationTitle_fallback_witness :
    generateConversationTitle "hello" (Except.ok (some "")) = "New Conversation" :=
  generateConversationTitle_fallback "hello" (Except.ok (some "")) (by decide)

/-- C10: `createMessage` coerces a falsy conversationId — here the empty
string — to null: the stored message carries `none`, and the query
`getMessagesByConversation` is unchanged for every id, so the message is
never returned for any id (in particular not for the empty string). -/
theorem createMessage_empty_id_coerced (st : MemStorage) (im : InsertMessage)
    (freshId : String) (now : Nat) (h : im.conversationId = some "") :
    (MemStorage.createMessage st im freshId now).1.conversationId = none ∧
    (∀ qid : String,
      MemStorage.getMessagesByConversation (MemStorage.createMessage st im freshId now).2 qid =
        MemStorage.getMessagesByConversation st qid) := by
  constructor
  · show coerceFalsyId im.conversationId = none
    rw [h]
    rfl
  · intro qid
    have hm : (MemStorage.createMessage st im freshId now).2.messages
        = st.messages ++ [⟨freshId, none, im.role, im.content, now⟩] := by
      unfold MemStorage.createMessage
      rw [h]
      rfl
    unfold MemStorage.getMessagesByConversation
    rw [hm, List.filter_append]
    simp [List.filter]

/-- C10 witness: a message created with conversationId "" is stored with a
null conversationId and is invisible to the query for the empty id. -/
theorem createMessage_empty_id_coerced_witness :
    (MemStorage.createMessage ⟨[], [], []⟩ ⟨some "", "user", "x"⟩ "m1" 7).1.conversationId
        = none ∧
    MemStorage.getMessagesByConversation
      (MemStorage.createMessage ⟨[], [], []⟩ ⟨some "", "user", "x"⟩ "m1" 7).2 "" =
      MemStorage.getMessagesByConversation ⟨[], [], []⟩ "" :=
  ⟨(createMessage_empty_id_coerced ⟨[], [], []⟩ ⟨some "", "user", "x"⟩ "m1" 7 rfl).1,
   (createMessage_empty_id_coerced ⟨[], [], []⟩ ⟨some "", "user", "x"⟩ "m1" 7 rfl).2 ""⟩

/-! ### Claims about the `POST /api/chat` handler -/

/-- Shared shape of a failed generation turn: the handler catches the
`Error` re-thrown by `generateChatResponse` and answers 400 with its
message, leaving the store untouched. -/
theorem postChat_of_gen_error (env : Env) (st : MemStorage) (body : ChatRequestBody)
    (o : ChatOracle) (emsg : String)
    (h : generateChatResponse env body.message
        (if envVarTruthy body.conversationId then
          (MemStorage.getMessagesByConversation st (body.conversationId.getD "")).map
            (fun m => ⟨m.role, m.content⟩)
        else []) o.chatProvider = Except.error emsg) :
    postChat env st (Except.ok body) o = ⟨400, none, none, some emsg, st⟩ := by
  simp only [postChat, h, chatCatch]

/-- C1: a valid chat request with a message and no conversationId whose
generation call succeeds creates exactly one new conversation and exactly
two new messages (the user message, then the assistant message) under the
new conversation id, and answers 200 with {response: the assistant text,
conversationId: the new conversation id}. The hypotheses say that the
generated UUID is nonempty and not already referenced by a stored message,
and that the two `new Date()` calls are non-decreasing. -/
theorem postChat_new_conversation (env : Env) (st : MemStorage) (message : String)
    (o : ChatOracle) (resp : String)
    (hgen : generateChatResponse env message [] o.chatProvider = Except.ok resp)
    (hid : o.convId ≠ "")
    (hfresh : ∀ m ∈ st.messages, m.conversationId ≠ some o.convId)
    (ht : o.userNow ≤ o.asstNow) :
    postChat env st (Except.ok ⟨message, none⟩) o =
      { status := 200
        response := some resp
        conversationId := some o.convId
        error := none
        store :=
          { users := st.users
            conversations := st.conversations ++
              [⟨o.convId, generateConversationTitle message o.titleProvider, o.convNow⟩]
            messages := st.messages ++
              [⟨o.userMsgId, some o.convId, "user", message, o.userNow⟩,
               ⟨o.asstMsgId, some o.convId, "assistant", resp, o.asstNow⟩] } } ∧
    MemStorage.getMessagesByConversation (postChat env st (Except.ok ⟨message, none⟩) o).store
        o.convId =
      [⟨o.userMsgId, some o.convId, "user", message, o.userNow⟩,
       ⟨o.asstMsgId, some o.convId, "assistant", resp, o.asstNow⟩] := by
  have hmain : postChat env st (Except.ok ⟨message, none⟩) o =
      { status := 200
        response := some resp
        conversationId := some o.convId
        error := none
        store :=
          { users := st.users
            conversations := st.conversations ++
              [⟨o.convId, generateConversationTitle message o.titleProvider, o.convNow⟩]
            messages := st.messages ++
              [⟨o.userMsgId, some o.convId, "user", message, o.userNow⟩,
               ⟨o.asstMsgId, some o.convId, "assistant", resp, o.asstNow⟩] } } := by
    simp only [postChat, envVarTruthy]
    simp only [Bool.false_eq_true, if_false, hgen]
    simp [MemStorage.createConversation, MemStorage.createMessage, coerceFalsyId, hid]
  refine ⟨hmain, ?_⟩
  rw [hmain]
  have hfilter : ((st.messages ++
      ([⟨o.userMsgId, some o.convId, "user", message, o.userNow⟩,
        ⟨o.asstMsgId, some o.convId, "assistant", resp, o.asstNow⟩] : List Message)).filter
      (fun m => decide (m.conversationId = some o.convId))) =
      [⟨o.userMsgId, some o.convId, "user", message, o.userNow⟩,
       ⟨o.asstMsgId, some o.convId, "assistant", resp, o.asstNow⟩] := by
    rw [List.filter_append]
    have h1 : st.messages.filter (fun m => decide (m.conversationId = some o.convId)) = [] :=
      List.filter_eq_nil_iff.mpr (fun m hm hdec => hfresh m hm (of_decide_eq_true hdec))
    rw [h1]
    simp [List.filter]
  unfold MemStorage.getMessagesByConversation
  rw [hfilter]
  simp [List.insertionSort, List.orderedInsert, msgLE, ht]

/-- C1 witness: one concrete successful first turn on an empty store. -/
theorem postChat_new_conversation_witness :
    MemStorage.getMessagesByConversation
      (postChat ⟨some "key", none⟩ ⟨[], [], []⟩ (Except.ok ⟨"hi", none⟩)
        ⟨.ok (some "hello"), .ok (some "Title"), "conv-1", "msg-u", "msg-a", 10, 11, 12⟩).store
      "conv-1" =
      [⟨"msg-u", some "conv-1", "user", "hi", 11⟩,
       ⟨"msg-a", some "conv-1", "assistant", "hello", 12⟩] :=
  (postChat_new_conversation ⟨some "key", none⟩ ⟨[], [], []⟩ "hi"
    ⟨.ok (some "hello"), .ok (some "Title"), "conv-1", "msg-u", "msg-a", 10, 11, 12⟩ "hello"
    rfl (by decide) (by simp) (by decide)).2

/-- C2: when the generation call fails, the handler leaves the store
untouched (no conversation, no messages) and answers 400 with the error
message; in particular, with no API credential configured every chat
request answers 400 with an error body and writes nothing. -/
theorem postChat_generation_failure_no_writes (env : Env) (st : MemStorage)
    (body : ChatRequestBody) (o : ChatOracle) :
    (∀ emsg : String,
      generateChatResponse env body.message
        (if envVarTruthy body.conversationId then
          (MemStorage.getMessagesByConversation st (body.conversationId.getD "")).map
            (fun m => ⟨m.role, m.content⟩)
        else []) o.chatProvider = Except.error emsg →
      postChat env st (Except.ok body) o = ⟨400, none, none, some emsg, st⟩) ∧
    (credentialConfigured env = false →
      postChat env st (Except.ok body) o =
        ⟨400, none, none,
          some "Invalid or missing API key. Please check your Gemini API configuration.",
          st⟩) := by
  constructor
  · intro emsg h
    exact postChat_of_gen_error env st body o emsg h
  · intro hcfg
    have hclass : classifyGeminiError (.errObj missingKeyMessage) =
        "Invalid or missing API key. Please check your Gemini API configuration." := by decide
    have hgen : generateChatResponse env body.message
        (if envVarTruthy body.conversationId then
          (MemStorage.getMessagesByConversation st (body.conversationId.getD "")).map
            (fun m => ⟨m.role, m.content⟩)
        else []) o.chatProvider =
        Except.error
          "Invalid or missing API key. Please check your Gemini API configuration." := by
      unfold generateChatResponse
      rw [hcfg, hclass]
      rfl
    exact postChat_of_gen_error env st body o _ hgen

/-- C2 witness: with both credential variables unset, a chat request gets
a 400 with the API-key error message and an unchanged (empty) store. -/
theorem postChat_generation_failure_no_writes_witness :
    postChat ⟨none, none⟩ ⟨[], [], []⟩ (Except.ok ⟨"hi", none⟩)
        ⟨.thrown .other, .error (), "c", "u", "a", 0, 0, 0⟩ =
      ⟨400, none, none,
        some "Invalid or missing API key. Please check your Gemini API configuration.",
        ⟨[], [], []⟩⟩ :=
  (postChat_generation_failure_no_writes ⟨none, none⟩ ⟨[], [], []⟩ ⟨"hi", none⟩
    ⟨.thrown .other, .error (), "c", "u", "a", 0, 0, 0⟩).2 rfl

/-- C3: a valid chat request naming an existing conversation X whose
generation call succeeds creates no new conversation, appends exactly the
user and assistant messages under X, and leaves every previously stored
message under X unchanged and before the two new ones in the query order.
The hypotheses say that X is nonempty (a UUID), that prior timestamps
under X do not exceed the first `new Date()` of this turn, and that the
two `new Date()` calls are non-decreasing. -/
theorem postChat_existing_conversation_append (env : Env) (st : MemStorage)
    (message X : String) (o : ChatOracle) (resp : String)
    (hX : X ≠ "")
    (hex : ∃ c ∈ st.conversations, c.id = X)
    (hgen : generateChatResponse env message
      ((MemStorage.getMessagesByConversation st X).map (fun m => ⟨m.role, m.content⟩))
      o.chatProvider = Except.ok resp)
    (hts : ∀ m ∈ st.messages, m.conversationId = some X → m.timestamp ≤ o.userNow)
    (ht : o.userNow ≤ o.asstNow) :
    postChat env st (Except.ok ⟨message, some X⟩) o =
      { status := 200
        response := some resp
        conversationId := some X
        error := none
        store :=
          { users := st.users
            conversations := st.conversations
            messages := st.messages ++
              [⟨o.userMsgId, some X, "user", message, o.userNow⟩,
               ⟨o.asstMsgId, some X, "assistant", resp, o.asstNow⟩] } } ∧
    MemStorage.getMessagesByConversation (postChat env st (Except.ok ⟨message, some X⟩) o).store
        X =
      MemStorage.getMessagesByConversation st X ++
        [⟨o.userMsgId, some X, "user", message, o.userNow⟩,
         ⟨o.asstMsgId, some X, "assistant", resp, o.asstNow⟩] := by
  have hmain : postChat env st (Except.ok ⟨message, some X⟩) o =
      { status := 200
        response := some resp
        conversationId := some X
        error := none
        store :=
          { users := st.users
            conversations := st.conversations
            messages := st.messages ++
              [⟨o.userMsgId, some X, "user", message, o.userNow⟩,
               ⟨o.asstMsgId, some X, "assistant", resp, o.asstNow⟩] } } := by
    simp [postChat, envVarTruthy, hX, hgen, MemStorage.createMessage, coerceFalsyId]
  refine ⟨hmain, ?_⟩
  rw [hmain]
  have hfu : ∀ y ∈ st.messages.filter (fun m => decide (m.conversationId = some X)),
      msgLE y (⟨o.userMsgId, some X, "user", message, o.userNow⟩ : Message) := by
    intro y hy
    have hmem := List.mem_filter.mp hy
    exact hts y hmem.1 (of_decide_eq_true hmem.2)
  have hfa : ∀ y ∈ st.messages.filter (fun m => decide (m.conversationId = some X)) ++
      ([⟨o.userMsgId, some X, "user", message, o.userNow⟩] : List Message),
      msgLE y (⟨o.asstMsgId, some X, "assistant", resp, o.asstNow⟩ : Message) := by
    intro y hy
    rcases List.mem_append.mp hy with hy1 | hy2
    · exact Nat.le_trans (hfu y hy1) ht
    · rw [List.mem_singleton.mp hy2]
      exact ht
  have hfilter : ((st.messages ++
      ([⟨o.userMsgId, some X, "user", message, o.userNow⟩,
        ⟨o.asstMsgId, some X, "assistant", resp, o.asstNow⟩] : List Message)).filter
      (fun m => decide (m.conversationId = some X))) =
      (st.messages.filter (fun m => decide (m.conversationId = some X)) ++
        [⟨o.userMsgId, some X, "user", message, o.userNow⟩]) ++
      [⟨o.asstMsgId, some X, "assistant", resp, o.asstNow⟩] := by
    rw [List.filter_append]
    simp [List.filter, List.append_assoc]
  unfold MemStorage.getMessagesByConversation
  rw [hfilter, insertionSort_append_last msgLE _ _ hfa, insertionSort_append_last msgLE _ _ hfu]
  simp [List.append_assoc]

/-- C3 witness: a second turn on a store holding conversation conv-1 with
one earlier message appends the new pair after the old message. -/
theorem postChat_existing_conversation_append_witness :
    MemStorage.getMessagesByConversation
      (postChat ⟨some "key", none⟩
        ⟨[], [⟨"conv-1", "T", 1⟩], [⟨"m0", some "conv-1", "user", "old", 5⟩]⟩
        (Except.ok ⟨"hi", some "conv-1"⟩)
        ⟨.ok (some "reply"), .ok none, "c-new", "mu", "ma", 20, 21, 22⟩).store "conv-1" =
      MemStorage.getMessagesByConversation
        ⟨[], [⟨"conv-1", "T", 1⟩], [⟨"m0", some "conv-1", "user", "old", 5⟩]⟩ "conv-1" ++
      [⟨"mu", some "conv-1", "user", "hi", 21⟩,
       ⟨"ma", some "conv-1", "assistant", "reply", 22⟩] :=
  (postChat_existing_conversation_append ⟨some "key", none⟩
    ⟨[], [⟨"conv-1", "T", 1⟩], [⟨"m0", some "conv-1", "user", "old", 5⟩]⟩ "hi" "conv-1"
    ⟨.ok (some "reply"), .ok none, "c-new", "mu", "ma", 20, 21, 22⟩ "reply"
    (by decide) (by decide) rfl (by decide) (by decide)).2

/-- C4: the handler maps failures to status codes as the spec partitions
them: a thrown `Error` — a validation (`ZodError`) or generation failure —
yields 400 with its message as the error body, while a thrown non-`Error`
value yields 500 with the generic message; the store is untouched in every
failure case. -/
theorem postChat_error_status_mapping (env : Env) (st : MemStorage) (o : ChatOracle) :
    (∀ emsg : String, postChat env st (Except.error (Thrown.errObj emsg)) o =
      ⟨400, none, none, some emsg, st⟩) ∧
    (postChat env st (Except.error Thrown.other) o =
      ⟨500, none, none, some unexpectedErrorMessage, st⟩) ∧
    (∀ (body : ChatRequestBody) (emsg : String),
      generateChatResponse env body.message
        (if envVarTruthy body.conversationId then
          (MemStorage.getMessagesByConversation st (body.conversationId.getD "")).map
            (fun m => ⟨m.role, m.content⟩)
        else []) o.chatProvider = Except.error emsg →
      postChat env st (Except.ok body) o = ⟨400, none, none, some emsg, st⟩) :=
  ⟨fun _ => rfl, rfl, fun body emsg h => postChat_of_gen_error env st body o emsg h⟩

/-- C4 witness: a thrown `Error` ("boom") yields 400 with its message and
a thrown non-`Error` yields 500 with the generic message. -/
theorem postChat_error_status_mapping_witness :
    postChat ⟨some "key", none⟩ ⟨[], [], []⟩ (Except.error (Thrown.errObj "boom"))
        ⟨.thrown .other, .error (), "c", "u", "a", 0, 0, 0⟩ =
      ⟨400, none, none, some "boom", ⟨[], [], []⟩⟩ ∧
    postChat ⟨some "key", none⟩ ⟨[], [], []⟩ (Except.error Thrown.other)
        ⟨.thrown .other, .error (), "c", "u", "a", 0, 0, 0⟩ =
      ⟨500, none, none, some unexpectedErrorMessage, ⟨[], [], []⟩⟩ :=
  ⟨(postChat_error_status_mapping ⟨some "key", none⟩ ⟨[], [], []⟩
      ⟨.thrown .other, .error (), "c", "u", "a", 0, 0, 0⟩).1 "boom",
   (postChat_error_status_mapping ⟨some "key", none⟩ ⟨[], [], []⟩
      ⟨.thrown .other, .error (), "c", "u", "a", 0, 0, 0⟩).2.1⟩

/-- C9: on every successful chat turn the persisted user message carries
exactly the request message string and the persisted assistant message
carries exactly the string returned in the response body, so the stored
transcript and the client-visible reply never diverge. -/
theorem postChat_persists_exact_contents (env : Env) (st : MemStorage)
    (body : ChatRequestBody) (o : ChatOracle) (resp : String)
    (hgen : generateChatResponse env body.message
        (if envVarTruthy body.conversationId then
          (MemStorage.getMessagesByConversation st (body.conversationId.getD "")).map
            (fun m => ⟨m.role, m.content⟩)
        else []) o.chatProvider = Except.ok resp) :
    ∃ u a : Message,
      (postChat env st (Except.ok body) o).store.messages = st.messages ++ [u, a] ∧
      u.role = "user" ∧ u.content = body.message ∧
      a.role = "assistant" ∧ a.content = resp ∧
      (postChat env st (Except.ok body) o).response = some resp ∧
      (postChat env st (Except.ok body) o).status = 200 := by
  cases htr : envVarTruthy body.conversationId with
  | true =>
    simp only [htr, if_true] at hgen
    refine ⟨⟨o.userMsgId, coerceFalsyId (some (body.conversationId.getD "")), "user",
        body.message, o.userNow⟩,
      ⟨o.asstMsgId, coerceFalsyId (some (body.conversationId.getD "")), "assistant",
        resp, o.asstNow⟩, ?_, rfl, rfl, rfl, rfl, ?_, ?_⟩ <;>
      simp [postChat, htr, hgen, MemStorage.createMessage]
  | false =>
    simp only [htr, Bool.false_eq_true, if_false] at hgen
    refine ⟨⟨o.userMsgId, coerceFalsyId (some o.convId), "user", body.message, o.userNow⟩,
      ⟨o.asstMsgId, coerceFalsyId (some o.convId), "assistant", resp, o.asstNow⟩,
      ?_, rfl, rfl, rfl, rfl, ?_, ?_⟩ <;>
      simp [postChat, htr, hgen, MemStorage.createMessage, MemStorage.createConversation]

/-- C9 witness: a concrete successful turn persists "hi" as the user
message content and the replied text as the assistant message content. -/
theorem postChat_persists_exact_contents_witness :
    ∃ u a : Message,
      (postChat ⟨some "key", none⟩ ⟨[], [], []⟩ (Except.ok ⟨"hi", none⟩)
        ⟨.ok (some "hello"), .ok (some "Title"), "conv-1", "msg-u", "msg-a",
          10, 11, 12⟩).store.messages = [] ++ [u, a] ∧
      u.role = "user" ∧ u.content = "hi" ∧
      a.role = "assistant" ∧ a.content = "hello" ∧
      (postChat ⟨some "key", none⟩ ⟨[], [], []⟩ (Except.ok ⟨"hi", none⟩)
        ⟨.ok (some "hello"), .ok (some "Title"), "conv-1", "msg-u", "msg-a",
          10, 11, 12⟩).response = some "hello" ∧
      (postChat ⟨some "key", none⟩ ⟨[], [], []⟩ (Except.ok ⟨"hi", none⟩)
        ⟨.ok (some "hello"), .ok (some "Title"), "conv-1", "msg-u", "msg-a",
          10, 11, 12⟩).status = 200 :=
  postChat_persists_exact_contents ⟨some "key", none⟩ ⟨[], [], []⟩ ⟨"hi", none⟩
    ⟨.ok (some "hello"), .ok (some "Title"), "conv-1", "msg-u", "msg-a", 10, 11, 12⟩
    "hello" rfl

end CyberAI
